import Mathlib

/-!
Verification of the vegetation module of the coastal-veg repository
(src/02_deltas/VegetationModel.py), a pyDeltaRCM subclass implementing the
Lauzon & Murray (2018) DeltaRCM Vegetation model.

Real-valued numpy arrays are embedded as functions from an abstract cell-index
type into the rationals; numpy whole-array expressions become cellwise
functions, and the sequential in-place mutations of the Python methods become
explicit intermediate fields.  The scalar constant numpy.pi is kept as an
abstract rational parameter `pi` (every property proved here holds for every
value of it).
-/

namespace CoastalVeg

/-- Rational model of numpy.clip(x, lo, hi) = min(max(x, lo), hi). -/
def np_clip (x lo hi : ℚ) : ℚ := min (max x lo) hi

/-- Constant sec_in_day imported from pyDeltaRCM.shared_tools: seconds per day. -/
def sec_in_day : ℚ := 86400

/-- Constant day_in_yr imported from pyDeltaRCM.shared_tools: days per model year. -/
def day_in_yr : ℚ := 365.25

/-- User-supplied YAML parameters registered in hook_import_files
(src/02_deltas/VegetationModel.py lines 63-118).  The two boolean flags are
kept in `HostParams`; the physical constants are collected here. -/
structure InputParams where
  p_veg_d_root : ℚ
  p_veg_d_stem : ℚ
  p_veg_K : ℚ
  p_veg_r : ℚ
  p_veg_est_flood_dur : ℚ
  p_veg_est_inter_dur : ℚ
  p_veg_est_depth : ℚ
  p_veg_est_roc : ℚ
  p_veg_est_init : ℚ

/-- Scalar vegetation attributes set on the model by hook_after_create_domain
(lines 139-160): the copied constants, the unit-converted durations and rate,
and the derived coefficients veg_b and veg_A. -/
structure VegParams where
  veg_d_root : ℚ
  veg_d_stem : ℚ
  veg_K : ℚ
  veg_r : ℚ
  veg_est_flood_duration : ℚ
  veg_est_interflood_duration : ℚ
  veg_est_depth : ℚ
  veg_est_roc : ℚ
  veg_est_init : ℚ
  veg_b : ℚ
  veg_A : ℚ

/-- Host-simulator scalars read by the vegetation hooks: the timestep length
self._dt, the dry-cell depth threshold self.dry_depth, the sea-level-rise rate
self.SLR, and the YAML flag `vegetation` enabling the module. -/
structure HostParams where
  dt : ℚ
  dry_depth : ℚ
  SLR : ℚ
  vegetation : Bool

/-- Shared grid state: the 2-D fields live on an abstract cell-index type ι,
together with the scalar timer self.time_since_interflood and the sea-level
accumulator self.H_SL. -/
structure GridState (ι : Type) where
  eta : ι → ℚ
  eta0 : ι → ℚ
  depth : ι → ℚ
  veg_frac : ι → ℚ
  veg_alpha : ι → ℚ
  mod_water_weight : ι → ℚ
  eta_change : ι → ℚ
  time_since_interflood : ℚ
  H_SL : ℚ

variable {ι : Type}

/-- Method hook_after_create_domain (lines 134-160).  It zero-fills veg_frac,
one-fills veg_alpha, resets eta_change and the timer, copies and
unit-converts the YAML constants, and computes the derived coefficients
  veg_b = 0.7 / d_stem / K
  veg_A = 0.88 * 4 / (pi * d_stem^2 * K * ((4 / d_stem / K) - veg_b)).
The divisions producing veg_b operate on plain Python scalars, so a zero
d_stem or K raises ZeroDivisionError; this fallible step is modelled with
Except.  (The divisor of veg_A is a numpy float and numpy float division
never raises; moreover once d_stem and K are nonzero that divisor equals
pi * 3.3 * d_stem, nonzero for every nonzero pi.)  No other validation is
performed by the method. -/
def hook_after_create_domain (p : InputParams) (pi : ℚ) (s : GridState ι) :
    Except String (VegParams × GridState ι) :=
  let s1 : GridState ι :=
    { s with veg_frac := fun _ => 0
             veg_alpha := fun _ => 1
             eta_change := fun _ => 0
             time_since_interflood := 0 }
  if p.p_veg_d_stem = 0 ∨ p.p_veg_K = 0 then
    Except.error "ZeroDivisionError: float division by zero"
  else
    let veg_b := 0.7 / p.p_veg_d_stem / p.p_veg_K
    let veg_A := 0.88 * 4 /
      (pi * p.p_veg_d_stem ^ 2 * p.p_veg_K *
        ((4 / p.p_veg_d_stem / p.p_veg_K) - veg_b))
    Except.ok
      ({ veg_d_root := p.p_veg_d_root
         veg_d_stem := p.p_veg_d_stem
         veg_K := p.p_veg_K
         veg_r := p.p_veg_r / (sec_in_day * day_in_yr)
         veg_est_flood_duration := p.p_veg_est_flood_dur * sec_in_day
         veg_est_interflood_duration := p.p_veg_est_inter_dur * sec_in_day
         veg_est_depth := p.p_veg_est_depth
         veg_est_roc := p.p_veg_est_roc
         veg_est_init := p.p_veg_est_init
         veg_b := veg_b
         veg_A := veg_A }, s1)

/-- Method hook_run_water_iteration (lines 162-183): recompute veg_alpha as
the linear map -0.099 * veg_frac + 0.1, then build the water-weight field by
setting every cell to 1, overwriting the cells with veg_frac >= veg_b by the
candidate 1 - (veg_A * pi * d_stem^2 * K * (veg_frac - veg_b)) / 4, and
clipping the whole field to [0, 1]. -/
def hook_run_water_iteration (vp : VegParams) (pi : ℚ) (s : GridState ι) :
    GridState ι :=
  let part1 := fun i =>
    vp.veg_A * pi * vp.veg_d_stem ^ 2 * vp.veg_K * (s.veg_frac i - vp.veg_b)
  let candidate := fun i => 1 - (part1 i / 4)
  let w := fun i => if vp.veg_b ≤ s.veg_frac i then candidate i else 1
  { s with veg_alpha := fun i => -0.099 * s.veg_frac i + 0.1
           mod_water_weight := fun i => np_clip (w i) 0 1 }

/-- Method _vegetation_mortality (lines 210-230), applied every timestep:
first zero veg_frac wherever |eta_change| >= d_root, then zero it wherever
depth > 1, then compute the proportional survivor fraction
veg_frac * (1 - |eta_change| / d_root) from the already-zeroed field and
assign it exactly on the cells with 0 < |eta_change| < d_root. -/
def vegetation_mortality (vp : VegParams) (s : GridState ι) : GridState ι :=
  let f1 := fun i =>
    if vp.veg_d_root ≤ |s.eta_change i| then 0 else s.veg_frac i
  let f2 := fun i => if 1 < s.depth i then 0 else f1 i
  let possible := fun i => f2 i * (1 - |s.eta_change i| / vp.veg_d_root)
  { s with veg_frac := fun i =>
      if 0 < |s.eta_change i| ∧ |s.eta_change i| < vp.veg_d_root then
        possible i
      else f2 i }

/-- Method _vegetation_growth (lines 232-295) with the hardcoded flag
_veg_growth_flag = 'code' (line 244): a cell is establishment-valid when it is
dry (depth < dry_depth) or both inside the depth window (depth < est_depth)
and below the signed elevation-change threshold
(eta_change < est_roc * d_root), and currently carries zero fraction; valid
cells receive the initial fraction, then one explicit-Euler logistic step
sized for the whole interflood span is added everywhere, and the sea-level
accumulator H_SL is advanced by SLR * interflood duration, unscaled by any
intermittency factor. -/
def vegetation_growth (vp : VegParams) (hp : HostParams) (s : GridState ι) :
    GridState ι :=
  let nochange := fun i => s.eta_change i < vp.veg_est_roc * vp.veg_d_root
  let inwindow := fun i => s.depth i < vp.veg_est_depth
  let noveg := fun i => s.veg_frac i = 0
  let dry := fun i => s.depth i < hp.dry_depth
  let valid := fun i => (dry i ∨ (inwindow i ∧ nochange i)) ∧ noveg i
  let f1 := fun i => if valid i then vp.veg_est_init else s.veg_frac i
  let dveg_frac := fun i =>
    vp.veg_est_interflood_duration * (1 - f1 i) * vp.veg_r * f1 i
  { s with veg_frac := fun i => f1 i + dveg_frac i
           H_SL := s.H_SL + hp.SLR * vp.veg_est_interflood_duration }

/-- First statement of hook_after_route_sediment (line 189): record the bed
elevation change of this timestep. -/
def computeEtaChange (s : GridState ι) : GridState ι :=
  { s with eta_change := fun i => s.eta i - s.eta0 i }

/-- Timer increment of hook_after_route_sediment (line 194). -/
def stepTimer (hp : HostParams) (s : GridState ι) : GridState ι :=
  { s with time_since_interflood := s.time_since_interflood + hp.dt }

/-- Final statement of hook_after_route_sediment (line 208): clip veg_frac
into [0, 1]. -/
def clampFrac (s : GridState ι) : GridState ι :=
  { s with veg_frac := fun i => np_clip (s.veg_frac i) 0 1 }

/-- Method hook_after_route_sediment (lines 185-208): compute eta_change;
when vegetation is enabled, advance the timer by the timestep, run mortality
unconditionally, and run growth followed by a timer reset exactly when the
advanced timer has reached the flood duration; finally clip veg_frac to
[0, 1] in every case. -/
def hook_after_route_sediment (vp : VegParams) (hp : HostParams)
    (s : GridState ι) : GridState ι :=
  let s1 := computeEtaChange s
  let s5 :=
    if hp.vegetation then
      let s2 := stepTimer hp s1
      let s3 := vegetation_mortality vp s2
      if vp.veg_est_flood_duration ≤ s3.time_since_interflood then
        { vegetation_growth vp hp s3 with time_since_interflood := 0 }
      else s3
    else s1
  clampFrac s5

/-! Basic facts about the clip. -/

theorem np_clip_nonneg (x : ℚ) : 0 ≤ np_clip x 0 1 :=
  le_min (le_max_right x 0) zero_le_one

theorem np_clip_le_one (x : ℚ) : np_clip x 0 1 ≤ 1 :=
  min_le_right _ _

/-- C1: for every grid state and every call to the post-sediment-routing
hook, with vegetation enabled or disabled and arbitrary prior fields, every
cell of the vegetation fraction field lies in [0, 1] when the hook
returns. -/
theorem C1_frac_in_unit_interval (vp : VegParams) (hp : HostParams)
    (s : GridState ι) (i : ι) :
    0 ≤ (hook_after_route_sediment vp hp s).veg_frac i ∧
      (hook_after_route_sediment vp hp s).veg_frac i ≤ 1 := by
  have h : (hook_after_route_sediment vp hp s).veg_frac i =
      np_clip ((if hp.vegetation then
        let s2 := stepTimer hp (computeEtaChange s)
        let s3 := vegetation_mortality vp s2
        if vp.veg_est_flood_duration ≤ s3.time_since_interflood then
          { vegetation_growth vp hp s3 with time_since_interflood := 0 }
        else s3
      else computeEtaChange s).veg_frac i) 0 1 := rfl
  rw [h]
  exact ⟨np_clip_nonneg _, np_clip_le_one _⟩

/-- Helper: the two hard-zero mortality rules are not undone by the
proportional-reduction assignment, because the survivor fraction it writes is
computed from the already-zeroed field. -/
theorem mortality_hard_zero (vp : VegParams) (s : GridState ι)
    (i : ι) (h : vp.veg_d_root ≤ |s.eta_change i| ∨ 1 < s.depth i) :
    (vegetation_mortality vp s).veg_frac i = 0 := by
  rcases h with h | h
  · have hnot : ¬ (0 < |s.eta_change i| ∧ |s.eta_change i| < vp.veg_d_root) :=
      fun hc => absurd h (not_le.mpr hc.2)
    simp only [vegetation_mortality, if_neg hnot]
    rcases lt_or_le 1 (s.depth i) with hd | hd
    · simp [hd]
    · simp [not_lt.mpr hd, h]
  · simp only [vegetation_mortality]
    split
    · simp [h]
    · simp [h]

/-- C2: after the mortality rule runs, every cell with |elevation change|
at least the root depth has fraction exactly 0, and every cell with depth
above 1 has fraction exactly 0, whatever the prior fraction was: neither
hard-zeroed kind of cell is left nonzero by the subsequent
proportional-reduction assignment. -/
theorem C2_hard_zeros_survive_mortality (vp : VegParams) (s : GridState ι)
    (i : ι) (h : vp.veg_d_root ≤ |s.eta_change i| ∨ 1 < s.depth i) :
    (vegetation_mortality vp s).veg_frac i = 0 :=
  mortality_hard_zero vp s i h

/-- Witness for C2 at a concrete state: a cell with prior fraction 7/10,
elevation change 1 at root depth 1/2, depth 0, is zeroed by mortality. -/
theorem C2_witness :
    (vegetation_mortality
      { veg_d_root := 1/2, veg_d_stem := 6/100, veg_K := 800, veg_r := 1,
        veg_est_flood_duration := 259200, veg_est_interflood_duration := 8640000,
        veg_est_depth := 1/2, veg_est_roc := 1/100, veg_est_init := 1/20,
        veg_b := 7/480, veg_A := 1 }
      { eta := fun _ => 1, eta0 := fun _ => 0, depth := fun _ => 0,
        veg_frac := fun _ => 7/10, veg_alpha := fun _ => 1,
        mod_water_weight := fun _ => 1, eta_change := fun _ => 1,
        time_since_interflood := 0, H_SL := 0 } : GridState Unit).veg_frac () = 0 :=
  C2_hard_zeros_survive_mortality _ _ () (Or.inl (by norm_num))

/-- Concrete vegetation parameters used by the witness theorems. -/
def vpW : VegParams :=
  { veg_d_root := 1/2, veg_d_stem := 6/100, veg_K := 800, veg_r := 1,
    veg_est_flood_duration := 259200, veg_est_interflood_duration := 2,
    veg_est_depth := 1/2, veg_est_roc := 1/100, veg_est_init := 1/20,
    veg_b := 7/480, veg_A := 1 }

/-- Concrete host parameters used by the witness theorems. -/
def hpW : HostParams := { dt := 86400, dry_depth := 1/10, SLR := 3, vegetation := true }

/-- Concrete one-cell grid state used by the witness theorems. -/
def sW : GridState Unit :=
  { eta := fun _ => 0, eta0 := fun _ => 0, depth := fun _ => 0,
    veg_frac := fun _ => 0, veg_alpha := fun _ => 1,
    mod_water_weight := fun _ => 1, eta_change := fun _ => 0,
    time_since_interflood := 259200, H_SL := 5 }

/-- Helper: with vegetation enabled, the post-routing hook is the mortality
pipeline, with the growth-and-reset stage inserted exactly when the advanced
timer reaches the flood duration. -/
theorem hook_enabled_cases (vp : VegParams) (hp : HostParams) (s : GridState ι)
    (hveg : hp.vegetation = true) :
    hook_after_route_sediment vp hp s =
      if vp.veg_est_flood_duration ≤ s.time_since_interflood + hp.dt then
        clampFrac { vegetation_growth vp hp
            (vegetation_mortality vp (stepTimer hp (computeEtaChange s))) with
          time_since_interflood := 0 }
      else
        clampFrac (vegetation_mortality vp (stepTimer hp (computeEtaChange s))) := by
  have hcond : (vegetation_mortality vp (stepTimer hp (computeEtaChange s))).time_since_interflood
      = s.time_since_interflood + hp.dt := rfl
  simp only [hook_after_route_sediment, hveg, if_true, hcond]
  rw [apply_ite clampFrac]

/-- Helper: with vegetation disabled, the post-routing hook only records the
elevation change and clamps the fraction field. -/
theorem hook_disabled (vp : VegParams) (hp : HostParams) (s : GridState ι)
    (hveg : hp.vegetation = false) :
    hook_after_route_sediment vp hp s = clampFrac (computeEtaChange s) := by
  simp only [hook_after_route_sediment, hveg, Bool.false_eq_true, if_false]

/-- C3: after the pre-water-routing hook, the water-weight field equals 1 at
every cell with fraction strictly below the density threshold veg_b, and at
every other cell equals the candidate
1 - veg_A * pi * d_stem^2 * K * (fraction - veg_b) / 4 clamped into [0, 1]. -/
theorem C3_water_weight (vp : VegParams) (pi : ℚ) (s : GridState ι) (i : ι) :
    (hook_run_water_iteration vp pi s).mod_water_weight i =
      if s.veg_frac i < vp.veg_b then 1
      else np_clip (1 - vp.veg_A * pi * vp.veg_d_stem ^ 2 * vp.veg_K *
        (s.veg_frac i - vp.veg_b) / 4) 0 1 := by
  by_cases h : s.veg_frac i < vp.veg_b
  · simp only [hook_run_water_iteration, if_neg (not_le.mpr h), if_pos h]
    norm_num [np_clip]
  · simp only [hook_run_water_iteration, if_pos (not_lt.mp h), if_neg h]

/-- C4: with vegetation enabled, on each post-routing call the growth rule is
invoked exactly when the timer advanced by the timestep reaches the flood
duration; right after growth fires the hook leaves the timer at exactly 0,
and when growth does not fire the timer keeps its accumulated value. -/
theorem C4_duty_cycle (vp : VegParams) (hp : HostParams) (s : GridState ι)
    (hveg : hp.vegetation = true) :
    ((hook_after_route_sediment vp hp s).time_since_interflood =
      if vp.veg_est_flood_duration ≤ s.time_since_interflood + hp.dt then 0
      else s.time_since_interflood + hp.dt)
    ∧ (vp.veg_est_flood_duration ≤ s.time_since_interflood + hp.dt →
        hook_after_route_sediment vp hp s =
          clampFrac { vegetation_growth vp hp
              (vegetation_mortality vp (stepTimer hp (computeEtaChange s))) with
            time_since_interflood := 0 })
    ∧ (¬ vp.veg_est_flood_duration ≤ s.time_since_interflood + hp.dt →
        hook_after_route_sediment vp hp s =
          clampFrac (vegetation_mortality vp (stepTimer hp (computeEtaChange s)))) := by
  refine ⟨?_, ?_, ?_⟩
  · rw [hook_enabled_cases vp hp s hveg]
    by_cases h : vp.veg_est_flood_duration ≤ s.time_since_interflood + hp.dt
    · rw [if_pos h, if_pos h]; rfl
    · rw [if_neg h, if_neg h]; rfl
  · intro h; rw [hook_enabled_cases vp hp s hveg, if_pos h]
  · intro h; rw [hook_enabled_cases vp hp s hveg, if_neg h]

/-- Witness for C4: at the concrete fixture (timer 259200, dt 86400, flood
duration 259200, vegetation on) growth fires, the timer is reset to 0 and the
hook equals the mortality-growth-reset-clamp pipeline. -/
theorem C4_witness :
    (hook_after_route_sediment vpW hpW sW).time_since_interflood = 0 ∧
      hook_after_route_sediment vpW hpW sW =
        clampFrac { vegetation_growth vpW hpW
            (vegetation_mortality vpW (stepTimer hpW (computeEtaChange sW))) with
          time_since_interflood := 0 } := by
  have h := C4_duty_cycle vpW hpW sW rfl
  have hc : vpW.veg_est_flood_duration ≤ sW.time_since_interflood + hpW.dt := by
    norm_num [vpW, sW, hpW]
  exact ⟨by rw [h.1, if_pos hc], h.2.1 hc⟩

/-- Helper: a zero-fraction cell meeting the code-variant establishment
criteria is set to the initial fraction and then advanced one logistic step
by the growth rule. -/
theorem growth_established_value (vp : VegParams) (hp : HostParams)
    (s : GridState ι) (i : ι) (h0 : s.veg_frac i = 0)
    (hcond : s.depth i < hp.dry_depth ∨
      (s.depth i < vp.veg_est_depth ∧
        s.eta_change i < vp.veg_est_roc * vp.veg_d_root)) :
    (vegetation_growth vp hp s).veg_frac i =
      vp.veg_est_init +
        vp.veg_est_interflood_duration * (1 - vp.veg_est_init) * vp.veg_r *
          vp.veg_est_init := by
  have hv : (s.depth i < hp.dry_depth ∨
      (s.depth i < vp.veg_est_depth ∧
        s.eta_change i < vp.veg_est_roc * vp.veg_d_root)) ∧
      s.veg_frac i = 0 := ⟨hcond, h0⟩
  simp only [vegetation_growth, if_pos hv]

/-- C5: under the hardcoded code growth variant, when growth fires, every
zero-fraction cell that is dry or both inside the depth window and below the
signed elevation-change threshold is set to the initial establishment
fraction and advanced one logistic step in the same invocation, and every
nonzero-fraction cell is advanced by exactly
fraction + interflood_duration * (1 - fraction) * growth_rate * fraction. -/
theorem C5_establish_then_logistic (vp : VegParams) (hp : HostParams)
    (s : GridState ι) :
    (∀ i, s.veg_frac i = 0 →
      (s.depth i < hp.dry_depth ∨
        (s.depth i < vp.veg_est_depth ∧
          s.eta_change i < vp.veg_est_roc * vp.veg_d_root)) →
      (vegetation_growth vp hp s).veg_frac i =
        vp.veg_est_init +
          vp.veg_est_interflood_duration * (1 - vp.veg_est_init) * vp.veg_r *
            vp.veg_est_init)
    ∧ (∀ i, s.veg_frac i ≠ 0 →
      (vegetation_growth vp hp s).veg_frac i =
        s.veg_frac i +
          vp.veg_est_interflood_duration * (1 - s.veg_frac i) * vp.veg_r *
            s.veg_frac i) := by
  constructor
  · intro i h0 hcond
    exact growth_established_value vp hp s i h0 hcond
  · intro i h0
    have hv : ¬ ((s.depth i < hp.dry_depth ∨
        (s.depth i < vp.veg_est_depth ∧
          s.eta_change i < vp.veg_est_roc * vp.veg_d_root)) ∧
        s.veg_frac i = 0) := fun hc => h0 hc.2
    simp only [vegetation_growth, if_neg hv]

/-- Witness for C5: at the fixture (est_init 1/20, interflood duration 2,
growth rate 1), a dry zero-fraction cell ends at 29/200, and a cell with
fraction 1/2 ends at 1. -/
theorem C5_witness :
    (vegetation_growth vpW hpW sW).veg_frac () = 29/200 ∧
      (vegetation_growth vpW hpW
        { sW with veg_frac := fun _ => 1/2 }).veg_frac () = 1 := by
  constructor
  · have h := (C5_establish_then_logistic vpW hpW sW).1 () rfl
      (Or.inl (by norm_num [sW, hpW]))
    rw [h]; norm_num [vpW]
  · have h := (C5_establish_then_logistic vpW hpW
      { sW with veg_frac := fun _ => (1/2 : ℚ) }).2 () (by norm_num)
    rw [h]; norm_num [vpW]

/-- C6: on every post-routing call where growth fires, the sea-level
accumulator advances by exactly SLR times the interflood duration in seconds,
with no intermittency scaling; on every other call (growth not firing, or
vegetation disabled) the accumulator is left unchanged. -/
theorem C6_sea_level_lump (vp : VegParams) (hp : HostParams) (s : GridState ι) :
    (hook_after_route_sediment vp hp s).H_SL =
      if hp.vegetation = true ∧
          vp.veg_est_flood_duration ≤ s.time_since_interflood + hp.dt then
        s.H_SL + hp.SLR * vp.veg_est_interflood_duration
      else s.H_SL := by
  cases hveg : hp.vegetation with
  | false =>
      rw [hook_disabled vp hp s hveg,
        if_neg (fun hc => Bool.false_ne_true hc.1)]
      rfl
  | true =>
      rw [hook_enabled_cases vp hp s hveg]
      by_cases h : vp.veg_est_flood_duration ≤ s.time_since_interflood + hp.dt
      · rw [if_pos h, if_pos ⟨rfl, h⟩]; rfl
      · rw [if_neg h, if_neg (fun hc => h hc.2)]; rfl

/-- Concrete initialization input with non-positive root depth and growth
rate but nonzero d_stem * K, used for the C7 counterexample. -/
def cexInput : InputParams :=
  { p_veg_d_root := -1, p_veg_d_stem := 6/100, p_veg_K := 800, p_veg_r := 0,
    p_veg_est_flood_dur := 3, p_veg_est_inter_dur := 100,
    p_veg_est_depth := 1/2, p_veg_est_roc := 1/100, p_veg_est_init := 1/20 }

/-- Counterexample to C7 as stated: with a negative (hence non-positive) root
depth and a non-positive growth rate, initialization does not fail with a
configuration error — it succeeds, because hook_after_create_domain performs
no positivity validation at all. -/
theorem C7_counterexample :
    cexInput.p_veg_d_root ≤ 0 ∧ cexInput.p_veg_r ≤ 0 ∧
      (hook_after_create_domain cexInput (314159/100000) sW).isOk = true := by
  refine ⟨by norm_num [cexInput], by norm_num [cexInput], ?_⟩
  have hne : ¬ (cexInput.p_veg_d_stem = 0 ∨ cexInput.p_veg_K = 0) := by
    norm_num [cexInput]
  simp only [hook_after_create_domain, if_neg hne]
  rfl

/-- C7 (amended): initialization performs no positivity validation of the
physical constants; it fails (the ZeroDivisionError raised while computing
veg_b) exactly when d_stem * K = 0, and for every other input it succeeds,
setting the vegetation fraction field to all zeros and the
stability-coefficient field to all ones. -/
theorem C7_amended_init (p : InputParams) (pi : ℚ) (s : GridState ι) :
    ((hook_after_create_domain p pi s).isOk = false ↔
      p.p_veg_d_stem * p.p_veg_K = 0)
    ∧ (∀ vp s2, hook_after_create_domain p pi s = Except.ok (vp, s2) →
        (∀ i, s2.veg_frac i = 0) ∧ (∀ i, s2.veg_alpha i = 1)) := by
  constructor
  · rw [mul_eq_zero]
    by_cases h : p.p_veg_d_stem = 0 ∨ p.p_veg_K = 0
    · simp only [hook_after_create_domain, if_pos h]
      simpa [Except.isOk, Except.toBool] using h
    · simp only [hook_after_create_domain, if_neg h]
      simpa [Except.isOk, Except.toBool] using h
  · intro vp s2 hok
    by_cases h : p.p_veg_d_stem = 0 ∨ p.p_veg_K = 0
    · simp only [hook_after_create_domain, if_pos h] at hok
      exact absurd hok (by simp)
    · simp only [hook_after_create_domain, if_neg h, Except.ok.injEq,
        Prod.mk.injEq] at hok
      rw [← hok.2]
      exact ⟨fun _ => rfl, fun _ => rfl⟩

/-- Witness for C7 (amended): the default physical constants (d_stem = 0.06,
K = 800) give a succeeding initialization whose fraction field is zero and
whose stability field is one at the single cell. -/
theorem C7_amended_witness :
    ((hook_after_create_domain
        { cexInput with p_veg_d_root := 1/5, p_veg_r := 1 }
        (314159/100000) sW).isOk = false ↔
      ((1:ℚ) * 0 = 0 ∧ False)) ∧
    ∀ vp s2,
      hook_after_create_domain
        { cexInput with p_veg_d_root := 1/5, p_veg_r := 1 }
        (314159/100000) sW = Except.ok (vp, s2) →
      (∀ i, s2.veg_frac i = 0) ∧ (∀ i, s2.veg_alpha i = 1) := by
  have h := C7_amended_init
    { cexInput with p_veg_d_root := 1/5, p_veg_r := 1 }
    (314159/100000) sW
  constructor
  · rw [h.1]
    constructor
    · intro hz
      exact absurd hz (by norm_num [cexInput])
    · intro hz
      exact absurd hz.2 not_false
  · exact h.2

/-- C9: the establishment elevation-change criterion is the signed one-sided
comparison eta_change < est_roc * d_root with no absolute value, so a cell
eroded by at least the root depth in a timestep — and therefore zeroed by
mortality — is establishment-eligible in the same post-routing call: when
growth fires and its depth criterion holds, the cell ends the hook at the
clamped logistic advance of the initial establishment fraction. -/
theorem C9_erosion_reestablish (vp : VegParams) (hp : HostParams)
    (s : GridState ι) (i : ι)
    (hveg : hp.vegetation = true)
    (hfire : vp.veg_est_flood_duration ≤ s.time_since_interflood + hp.dt)
    (hroot : 0 < vp.veg_d_root) (hroc : 0 ≤ vp.veg_est_roc)
    (herode : s.eta i - s.eta0 i ≤ -vp.veg_d_root)
    (hdepth : s.depth i < vp.veg_est_depth) :
    (vegetation_mortality vp (stepTimer hp (computeEtaChange s))).veg_frac i = 0
    ∧ (hook_after_route_sediment vp hp s).veg_frac i =
        np_clip (vp.veg_est_init +
          vp.veg_est_interflood_duration * (1 - vp.veg_est_init) * vp.veg_r *
            vp.veg_est_init) 0 1 := by
  have hchg : (stepTimer hp (computeEtaChange s)).eta_change i =
      s.eta i - s.eta0 i := rfl
  have habs : vp.veg_d_root ≤ |(stepTimer hp (computeEtaChange s)).eta_change i| := by
    rw [hchg]
    exact le_abs.mpr (Or.inr (by linarith))
  have hm : (vegetation_mortality vp (stepTimer hp (computeEtaChange s))).veg_frac i = 0 :=
    mortality_hard_zero vp _ i (Or.inl habs)
  refine ⟨hm, ?_⟩
  rw [hook_enabled_cases vp hp s hveg, if_pos hfire]
  have hgoal : (clampFrac { vegetation_growth vp hp
      (vegetation_mortality vp (stepTimer hp (computeEtaChange s))) with
        time_since_interflood := 0 }).veg_frac i =
      np_clip ((vegetation_growth vp hp
        (vegetation_mortality vp (stepTimer hp (computeEtaChange s)))).veg_frac i) 0 1 := rfl
  rw [hgoal]
  have hno : (vegetation_mortality vp (stepTimer hp (computeEtaChange s))).eta_change i <
      vp.veg_est_roc * vp.veg_d_root := by
    have : (vegetation_mortality vp (stepTimer hp (computeEtaChange s))).eta_change i =
        s.eta i - s.eta0 i := rfl
    rw [this]
    nlinarith
  have hd : (vegetation_mortality vp (stepTimer hp (computeEtaChange s))).depth i <
      vp.veg_est_depth := hdepth
  rw [growth_established_value vp hp _ i hm (Or.inr ⟨hd, hno⟩)]

/-- Concrete grid state for the C9 witness: one cell eroded from elevation 0
down to -1 during the timestep. -/
def sC9 : GridState Unit :=
  { sW with eta := fun _ => -1, eta0 := fun _ => 0 }

/-- Witness for C9: at the fixture, the cell eroded by 1 (twice the root
depth 1/2) is zeroed by mortality, then re-established and grown to 29/200 by
the same post-routing call. -/
theorem C9_witness :
    (vegetation_mortality vpW (stepTimer hpW (computeEtaChange sC9))).veg_frac () = 0
    ∧ (hook_after_route_sediment vpW hpW sC9).veg_frac () = 29/200 := by
  have h := C9_erosion_reestablish vpW hpW sC9 () rfl
    (by norm_num [vpW, sC9, sW, hpW]) (by norm_num [vpW])
    (by norm_num [vpW]) (by norm_num [vpW, sC9, sW])
    (by norm_num [vpW, sC9, sW])
  refine ⟨h.1, ?_⟩
  rw [h.2]
  have hval : vpW.veg_est_init +
      vpW.veg_est_interflood_duration * (1 - vpW.veg_est_init) * vpW.veg_r *
        vpW.veg_est_init = 29/200 := by norm_num [vpW]
  rw [hval]
  simp only [np_clip, max_def, min_def]
  norm_num

/-- C10: for every fraction field with all values in [0, 1], the
stability-coefficient field written by the pre-water-routing hook lies in
[0.001, 0.1] at every cell; in particular it is strictly positive, so no
clamp is needed before the diffusion override consumes it. -/
theorem C10_alpha_bounds (vp : VegParams) (pi : ℚ) (s : GridState ι) (i : ι)
    (h0 : 0 ≤ s.veg_frac i) (h1 : s.veg_frac i ≤ 1) :
    0.001 ≤ (hook_run_water_iteration vp pi s).veg_alpha i ∧
      (hook_run_water_iteration vp pi s).veg_alpha i ≤ 0.1 ∧
      0 < (hook_run_water_iteration vp pi s).veg_alpha i := by
  have ha : (hook_run_water_iteration vp pi s).veg_alpha i =
      -0.099 * s.veg_frac i + 0.1 := rfl
  rw [ha]
  refine ⟨by linarith, by linarith, by linarith⟩

/-- Witness for C10: at the fixture the unvegetated cell gets stability
coefficient exactly 0.1, inside the stated bounds. -/
theorem C10_witness :
    0.001 ≤ (hook_run_water_iteration vpW 3 sW).veg_alpha () ∧
      (hook_run_water_iteration vpW 3 sW).veg_alpha () ≤ 0.1 ∧
      0 < (hook_run_water_iteration vpW 3 sW).veg_alpha () :=
  C10_alpha_bounds vpW 3 sW () (by norm_num [sW]) (by norm_num [sW])

/-! Two-dimensional model for the diffusion override (topo_diffusion).
Arrays are functions on ℤ × ℤ together with the grid dimensions; values
outside the m x n index rectangle are never read thanks to the zero padding
of the convolution. -/

/-- Membership of a cell index in the m x n array rectangle. -/
def inDomain (m n : ℕ) (i j : ℤ) : Prop :=
  0 ≤ i ∧ i < (m : ℤ) ∧ 0 ≤ j ∧ j < (n : ℤ)

instance (m n : ℕ) (i j : ℤ) : Decidable (inDomain m n i j) := by
  unfold inDomain
  infer_instance

/-- Zero padding used by scipy.ndimage.convolve with mode='constant' and the
default cval 0. -/
def pad (m n : ℕ) (f : ℤ → ℤ → ℚ) (i j : ℤ) : ℚ :=
  if inDomain m n i j then f i j else 0

/-- Model of scipy.ndimage.convolve for a 3 x 3 kernel under mode='constant':
the kernel is indexed by offsets in {-1, 0, 1} squared and, convolution being
the flipped correlation, cell (i, j) receives the sum of k u v times the
padded field at (i - u, j - v). -/
def conv3 (m n : ℕ) (k : ℤ → ℤ → ℚ) (f : ℤ → ℤ → ℚ) (i j : ℤ) : ℚ :=
  k (-1) (-1) * pad m n f (i+1) (j+1) + k (-1) 0 * pad m n f (i+1) j +
    k (-1) 1 * pad m n f (i+1) (j-1) +
    k 0 (-1) * pad m n f i (j+1) + k 0 0 * pad m n f i j +
    k 0 1 * pad m n f i (j-1) +
    k 1 (-1) * pad m n f (i-1) (j+1) + k 1 0 * pad m n f (i-1) j +
    k 1 1 * pad m n f (i-1) (j-1)

/-- Host-supplied diffusion environment read by topo_diffusion: the grid
dimensions, the two 3 x 3 kernels, the diffusion multiplier, the cell-type
classification, the sediment-flux field and the number of cross-diffusion
sub-iterations. -/
structure DiffusionEnv where
  m : ℕ
  n : ℕ
  kernel1 : ℤ → ℤ → ℚ
  kernel2 : ℤ → ℤ → ℚ
  diffusion_multiplier : ℚ
  cell_type : ℤ → ℤ → ℤ
  qs : ℤ → ℤ → ℚ
  N_crossdiff : ℕ

/-- One sub-iteration of the overridden topo_diffusion
(src/02_deltas/VegetationModel.py lines 305-319): convolve eta, qs, qs*eta
and veg_alpha with the kernels, combine them into the flux
cf = d * diffusion_multiplier * (qs * a - eta * b + c), zero the flux at
cells of type -2 and on row 0, and add it into eta. -/
def topo_diffusion_step (e : DiffusionEnv) (veg_alpha : ℤ → ℤ → ℚ)
    (eta : ℤ → ℤ → ℚ) : ℤ → ℤ → ℚ :=
  let a := conv3 e.m e.n e.kernel1 eta
  let b := conv3 e.m e.n e.kernel2 e.qs
  let c := conv3 e.m e.n e.kernel2 (fun i j => e.qs i j * eta i j)
  let d := conv3 e.m e.n e.kernel2 veg_alpha
  let cf := fun i j =>
    if e.cell_type i j = -2 ∨ i = 0 then 0
    else d i j * e.diffusion_multiplier *
      (e.qs i j * a i j - eta i j * b i j + c i j)
  fun i j => eta i j + cf i j

/-- Method topo_diffusion (lines 297-319): N_crossdiff sub-iterations of the
step, each updating eta in place. -/
def topo_diffusion (e : DiffusionEnv) (veg_alpha : ℤ → ℤ → ℚ)
    (eta : ℤ → ℤ → ℚ) : ℤ → ℤ → ℚ :=
  Nat.iterate (topo_diffusion_step e veg_alpha) e.N_crossdiff eta

/-- Modelled from the spec: the host simulator's unmodified default
topographic diffusion step (pyDeltaRCM topo_diffusion, which is not part of
this repository).  Per the spec, the override "differs from the host's
default only in multiplying by the convolved stability-coefficient field",
so the default flux is cf = diffusion_multiplier * (qs * a - eta * b + c)
with the same kernels, the same boundary zeroing and the same sub-iteration
count. -/
def host_topo_diffusion_step (e : DiffusionEnv) (eta : ℤ → ℤ → ℚ) :
    ℤ → ℤ → ℚ :=
  let a := conv3 e.m e.n e.kernel1 eta
  let b := conv3 e.m e.n e.kernel2 e.qs
  let c := conv3 e.m e.n e.kernel2 (fun i j => e.qs i j * eta i j)
  let cf := fun i j =>
    if e.cell_type i j = -2 ∨ i = 0 then 0
    else e.diffusion_multiplier *
      (e.qs i j * a i j - eta i j * b i j + c i j)
  fun i j => eta i j + cf i j

/-- Modelled from the spec: the host's unmodified default diffusion update,
iterating the default step N_crossdiff times. -/
def host_topo_diffusion (e : DiffusionEnv) (eta : ℤ → ℤ → ℚ) : ℤ → ℤ → ℚ :=
  Nat.iterate (host_topo_diffusion_step e) e.N_crossdiff eta

/-- Kernel with weight w at the center offset and 0 elsewhere. -/
def centerKernel (w : ℚ) : ℤ → ℤ → ℚ :=
  fun u v => if u = 0 ∧ v = 0 then w else 0

/-- Concrete diffusion environment for the C8 counterexample: a 2 x 1 grid,
center kernels, multiplier 1, no masked cells, uniform unit sediment flux and
one sub-iteration; kernel2 has center weight 2, so the all-ones stability
field convolves to 2 rather than 1 at the unmasked cell (1, 0). -/
def cexEnv : DiffusionEnv :=
  { m := 2, n := 1, kernel1 := centerKernel 1, kernel2 := centerKernel 2,
    diffusion_multiplier := 1, cell_type := fun _ _ => 0,
    qs := fun _ _ => 1, N_crossdiff := 1 }

/-- Counterexample to C8 as stated: with the stability-coefficient field all
ones, the diffusion override does not always produce the host's default
elevation update — with center-weight-2 kernel2 on an all-ones elevation the
override yields 3 at cell (1, 0) while the default yields 2, because the
override multiplies the flux by the kernel2-convolution of the all-ones
field. -/
theorem C8_counterexample :
    topo_diffusion cexEnv (fun _ _ => 1) (fun _ _ => 1) 1 0 ≠
      host_topo_diffusion cexEnv (fun _ _ => 1) 1 0 := by
  have hv : topo_diffusion cexEnv (fun _ _ => 1) (fun _ _ => 1) 1 0 = 3 := by
    norm_num [topo_diffusion, topo_diffusion_step, conv3, pad, inDomain,
      cexEnv, centerKernel, Function.iterate_one]
  have hh : host_topo_diffusion cexEnv (fun _ _ => 1) 1 0 = 2 := by
    norm_num [host_topo_diffusion, host_topo_diffusion_step, conv3, pad,
      inDomain, cexEnv, centerKernel, Function.iterate_one]
  rw [hv, hh]
  norm_num

/-- C8 (amended): with the stability-coefficient field equal to 1 at every
cell, the diffusion override produces exactly the host's default elevation
update on every grid whose kernel2 and mask satisfy
conv3 kernel2 ones = 1 at each cell where the flux is not zeroed; in general
the override multiplies the default flux by the kernel2-convolution of the
all-ones field, which need not equal 1. -/
theorem C8_all_ones_reduces_to_host (e : DiffusionEnv)
    (hker : ∀ i j : ℤ, ¬ (e.cell_type i j = -2 ∨ i = 0) →
      conv3 e.m e.n e.kernel2 (fun _ _ => 1) i j = 1) :
    ∀ eta, topo_diffusion e (fun _ _ => 1) eta = host_topo_diffusion e eta := by
  have hstep : ∀ eta, topo_diffusion_step e (fun _ _ => 1) eta =
      host_topo_diffusion_step e eta := by
    intro eta
    funext i j
    simp only [topo_diffusion_step, host_topo_diffusion_step]
    by_cases h : e.cell_type i j = -2 ∨ i = 0
    · rw [if_pos h, if_pos h]
    · rw [if_neg h, if_neg h, hker i j h, one_mul]
  intro eta
  unfold topo_diffusion host_topo_diffusion
  induction e.N_crossdiff generalizing eta with
  | zero => rfl
  | succ k ih =>
      rw [Function.iterate_succ_apply, Function.iterate_succ_apply, hstep eta]
      exact ih (host_topo_diffusion_step e eta)

/-- Diffusion environment for the C8 witness: center-normalized kernel2 and
every out-of-domain cell marked type -2, so the all-ones field convolves to 1
at the only unmasked cell. -/
def wEnv : DiffusionEnv :=
  { m := 2, n := 1, kernel1 := centerKernel 1, kernel2 := centerKernel 1,
    diffusion_multiplier := 1,
    cell_type := fun i j => if inDomain 2 1 i j then 0 else -2,
    qs := fun _ _ => 1, N_crossdiff := 1 }

/-- Witness for C8 (amended): on the witness environment the override with an
all-ones stability field equals the host default update. -/
theorem C8_witness :
    topo_diffusion wEnv (fun _ _ => 1) (fun _ _ => 1) =
      host_topo_diffusion wEnv (fun _ _ => 1) := by
  apply C8_all_ones_reduces_to_host
  intro i j h
  have hd : inDomain 2 1 i j := by
    by_contra hnd
    exact h (Or.inl (by simp [wEnv, if_neg hnd]))
  norm_num [conv3, centerKernel, pad, hd, wEnv]

end CoastalVeg
